import Mathlib

/-!
Shallow embedding of the backend-facing layer of the soleflip desktop
application (src/gui/src-tauri/src/api.rs and src/gui/src-tauri/src/commands.rs).

The transport (reqwest) is modelled as an oracle argument: each client method
takes the decoded-JSON outcome of its single HTTP round trip as an
`Except String Jval` (or an already-typed result where the claim only concerns
the command layer), and each command that performs input gating additionally
returns the list of client calls it issued, so that "rejects before any
network call" is the statement that this list is empty.

JSON is the `Jval` inductive below; serde_json numbers are either integers or
floats, floats being modelled as exact rationals (no claim depends on
floating-point rounding).  Unicode trimming and case-folding from Rust's
`str::trim` / `to_lowercase` / `to_uppercase` are modelled at the ASCII level.
The uuid crate's `Uuid::parse_str` is modelled on its simple (32 hex digits)
and hyphenated (8-4-4-4-12) formats; the exact error text of a failed parse is
abstracted, and no theorem below depends on either choice.
-/

/-- A serde_json number: an integer or a floating-point value (modelled as an
exact rational). -/
inductive Jnum where
  | int : Int → Jnum
  | float : Rat → Jnum

/-- A serde_json `Value`.  Objects are field lists in document order. -/
inductive Jval where
  | null : Jval
  | bool : Bool → Jval
  | num : Jnum → Jval
  | str : String → Jval
  | arr : List Jval → Jval
  | obj : List (String × Jval) → Jval

/-- First-match lookup of a key in an object's field list. -/
def lookupField : List (String × Jval) → String → Option Jval
  | [], _ => none
  | (k, v) :: rest, key => if k = key then some v else lookupField rest key

/-- Insert into an association list, replacing an existing binding
(models `HashMap::insert`). -/
def insertAssoc {α : Type} : List (String × α) → String → α → List (String × α)
  | [], k, v => [(k, v)]
  | (k1, v1) :: rest, k, v =>
    if k1 = k then (k, v) :: rest else (k1, v1) :: insertAssoc rest k v

/-- Build a map from a field list by repeated insertion (models the
`for (key, value) in obj { map.insert(key, value) }` loops). -/
def buildMap {α : Type} (ps : List (String × α)) : List (String × α) :=
  ps.foldl (fun m kv => insertAssoc m kv.1 kv.2) []

/-- A `HashMap<String, Value>` as produced by the client code. -/
abbrev HMap : Type := List (String × Jval)

/-- Models `serde_json::Value::get(key)`: `some` only on an object holding
the key. -/
def Jval.getKey : Jval → String → Option Jval
  | Jval.obj fs, key => lookupField fs key
  | _, _ => none

/-- Models indexing `value[key]`, which yields `Null` when the key is absent
or the value is not an object. -/
def Jval.idx (v : Jval) (key : String) : Jval :=
  (v.getKey key).getD Jval.null

/-- Models `Value::as_array`. -/
def Jval.asArr : Jval → Option (List Jval)
  | Jval.arr xs => some xs
  | _ => none

/-- Models `Value::as_str`. -/
def Jval.asStr : Jval → Option String
  | Jval.str s => some s
  | _ => none

/-- Models `v.as_object()` followed by inserting every entry into a fresh
`HashMap` (non-objects give the empty map, as in the listing loops). -/
def jvalToHMap : Jval → HMap
  | Jval.obj fs => buildMap fs
  | _ => []

/-- ASCII model of Rust's whitespace test used by `str::trim`. -/
def isWs (c : Char) : Bool :=
  c = ' ' ∨ c = '\t' ∨ c = '\n' ∨ c = '\r'

/-- ASCII model of `str::trim`. -/
def trimStr (s : String) : String :=
  String.mk (((s.data.dropWhile isWs).reverse.dropWhile isWs).reverse)

/-- ASCII model of `str::to_lowercase`. -/
def toLowerStr (s : String) : String :=
  String.mk (s.data.map Char.toLower)

/-- ASCII model of `str::to_uppercase`. -/
def toUpperStr (s : String) : String :=
  String.mk (s.data.map Char.toUpper)

/-- Models `str::starts_with`. -/
def startsWithStr (s p : String) : Bool :=
  p.data.isPrefixOf s.data

/-- Value of a hexadecimal digit. -/
def hexDigit (c : Char) : Option Nat :=
  if '0' ≤ c ∧ c ≤ '9' then some (c.toNat - 48)
  else if 'a' ≤ c ∧ c ≤ 'f' then some (c.toNat - 87)
  else if 'A' ≤ c ∧ c ≤ 'F' then some (c.toNat - 55)
  else none

/-- Read exactly `n` hexadecimal digits, accumulating their value. -/
def readHexAux : Nat → Nat → List Char → Option (Nat × List Char)
  | 0, acc, cs => some (acc, cs)
  | _ + 1, _, [] => none
  | n + 1, acc, c :: cs =>
    match hexDigit c with
    | some d => readHexAux n (acc * 16 + d) cs
    | none => none

/-- Consume one hyphen. -/
def expectDash : List Char → Option (List Char)
  | '-' :: cs => some cs
  | _ => none

/-- Parse the hyphenated 8-4-4-4-12 UUID format into its 128-bit value. -/
def parseHyphenated (cs : List Char) : Option Nat := do
  let (a, cs) ← readHexAux 8 0 cs
  let cs ← expectDash cs
  let (b, cs) ← readHexAux 4 0 cs
  let cs ← expectDash cs
  let (c, cs) ← readHexAux 4 0 cs
  let cs ← expectDash cs
  let (d, cs) ← readHexAux 4 0 cs
  let cs ← expectDash cs
  let (e, cs) ← readHexAux 12 0 cs
  match cs with
  | [] => some ((((a * 65536 + b) * 65536 + c) * 65536 + d) * 281474976710656 + e)
  | _ => none

/-- Model of `uuid::Uuid::parse_str`: the simple (32 hex digits) and
hyphenated (8-4-4-4-12) formats of the uuid crate, yielding the 128-bit
value; every other string is rejected. -/
def parseUuid (s : String) : Option Nat :=
  let cs := s.data
  if cs.length = 32 then
    match readHexAux 32 0 cs with
    | some (n, []) => some n
    | _ => none
  else parseHyphenated cs

/-- Stand-in for the display text of a uuid parse error (abstracted; no
theorem depends on it). -/
def uuidErrText (_s : String) : String := "invalid UUID"

/-- Decode a JSON string (serde: any other value is a type error). -/
def decodeString : Jval → Except String String
  | Jval.str s => Except.ok s
  | _ => Except.error "expected string"

/-- Decode an `i64` (serde_json: an integral number in range; floats are a
type error). -/
def decodeI64 : Jval → Except String Int
  | Jval.num (Jnum.int i) =>
    if -9223372036854775808 ≤ i ∧ i ≤ 9223372036854775807 then Except.ok i
    else Except.error "integer out of range"
  | _ => Except.error "expected integer"

/-- Decode an `i32`. -/
def decodeI32 : Jval → Except String Int
  | Jval.num (Jnum.int i) =>
    if -2147483648 ≤ i ∧ i ≤ 2147483647 then Except.ok i
    else Except.error "integer out of range"
  | _ => Except.error "expected integer"

/-- Decode a `u64`. -/
def decodeU64 : Jval → Except String Nat
  | Jval.num (Jnum.int i) =>
    if 0 ≤ i ∧ i ≤ 18446744073709551615 then Except.ok i.toNat
    else Except.error "integer out of range"
  | _ => Except.error "expected integer"

/-- Decode an `f64` (serde_json: any JSON number). -/
def decodeF64 : Jval → Except String Rat
  | Jval.num (Jnum.int i) => Except.ok (mkRat i 1)
  | Jval.num (Jnum.float q) => Except.ok q
  | _ => Except.error "expected number"

/-- Decode a `bool`. -/
def decodeBool : Jval → Except String Bool
  | Jval.bool b => Except.ok b
  | _ => Except.error "expected boolean"

/-- A required struct field: missing is an error (serde derive). -/
def reqField {α : Type} (fields : List (String × Jval)) (name : String)
    (dec : Jval → Except String α) : Except String α :=
  match lookupField fields name with
  | some v => dec v
  | none => Except.error ("missing field " ++ name)

/-- An `Option<T>` struct field: missing or `null` decodes to `None`
(serde derive). -/
def optField {α : Type} (fields : List (String × Jval)) (name : String)
    (dec : Jval → Except String α) : Except String (Option α) :=
  match lookupField fields name with
  | none => Except.ok none
  | some Jval.null => Except.ok none
  | some v => (dec v).map some

/-- A `#[serde(default)]` struct field: missing decodes to the default. -/
def defField {α : Type} (fields : List (String × Jval)) (name : String)
    (dec : Jval → Except String α) (d : α) : Except String α :=
  match lookupField fields name with
  | none => Except.ok d
  | some v => dec v

/-- Decode every element of a JSON array body (serde `Vec<T>`). -/
def decodeListWith {α : Type} (dec : Jval → Except String α) :
    List Jval → Except String (List α)
  | [] => Except.ok []
  | v :: vs => do
    let a ← dec v
    let rest ← decodeListWith dec vs
    Except.ok (a :: rest)

/-- Decode a serde `Vec<T>`: a JSON array whose every element decodes. -/
def decodeArr {α : Type} (dec : Jval → Except String α) :
    Jval → Except String (List α)
  | Jval.arr xs => decodeListWith dec xs
  | _ => Except.error "expected array"

/-- Decode a serde `HashMap<String, Value>`. -/
def decodeHMap : Jval → Except String HMap
  | Jval.obj fs => Except.ok (buildMap fs)
  | _ => Except.error "expected map"

/-- Decode the entries of a serde `HashMap<String, String>`. -/
def decodeStrPairs : List (String × Jval) → Except String (List (String × String))
  | [] => Except.ok []
  | (k, Jval.str s) :: rest => do
    let r ← decodeStrPairs rest
    Except.ok ((k, s) :: r)
  | _ => Except.error "expected string value"

/-- Decode a serde `HashMap<String, String>`. -/
def decodeStrMap : Jval → Except String (List (String × String))
  | Jval.obj fs => (decodeStrPairs fs).map buildMap
  | _ => Except.error "expected map"

/-- Decode a serde `Uuid` (deserialized from its string form via
`Uuid::parse_str`). -/
def decodeUuid : Jval → Except String Nat
  | Jval.str s =>
    match parseUuid s with
    | some u => Except.ok u
    | none => Except.error "invalid uuid"
  | _ => Except.error "expected uuid string"

/-- Data contract `InventoryItem` (api.rs lines 34-50); `f64` as `Rat`,
`Uuid` as its 128-bit value. -/
structure InventoryItem where
  id : Nat
  product_id : Option Nat
  product_name : String
  brand_name : Option String
  category_name : Option String
  size : String
  quantity : Int
  purchase_price : Option Rat
  purchase_date : Option String
  supplier : String
  status : String
  notes : Option String
  created_at : String
  updated_at : String
deriving DecidableEq

/-- serde decoding of `InventoryItem`. -/
def decodeInventoryItem : Jval → Except String InventoryItem
  | Jval.obj fields => do
    let id ← reqField fields "id" decodeUuid
    let product_id ← optField fields "product_id" decodeUuid
    let product_name ← reqField fields "product_name" decodeString
    let brand_name ← optField fields "brand_name" decodeString
    let category_name ← optField fields "category_name" decodeString
    let size ← reqField fields "size" decodeString
    let quantity ← reqField fields "quantity" decodeI32
    let purchase_price ← optField fields "purchase_price" decodeF64
    let purchase_date ← optField fields "purchase_date" decodeString
    let supplier ← reqField fields "supplier" decodeString
    let status ← reqField fields "status" decodeString
    let notes ← optField fields "notes" decodeString
    let created_at ← reqField fields "created_at" decodeString
    let updated_at ← reqField fields "updated_at" decodeString
    Except.ok ⟨id, product_id, product_name, brand_name, category_name, size,
      quantity, purchase_price, purchase_date, supplier, status, notes,
      created_at, updated_at⟩
  | _ => Except.error "InventoryItem: expected object"

/-- Data contract `BrandStats` (api.rs lines 64-71). -/
structure BrandStats where
  name : String
  total_products : Int
  total_items : Int
  avg_price : Rat
  total_value : Rat
deriving DecidableEq

/-- serde decoding of `BrandStats`. -/
def decodeBrandStats : Jval → Except String BrandStats
  | Jval.obj fields => do
    let name ← reqField fields "name" decodeString
    let total_products ← reqField fields "total_products" decodeI64
    let total_items ← reqField fields "total_items" decodeI64
    let avg_price ← reqField fields "avg_price" decodeF64
    let total_value ← reqField fields "total_value" decodeF64
    Except.ok ⟨name, total_products, total_items, avg_price, total_value⟩
  | _ => Except.error "BrandStats: expected object"

/-- Data contract `ProductStats` (api.rs lines 53-62): `total_value` is
renamed from the JSON field `total_inventory_value`, and `avg_profit_margin`
carries `#[serde(default)]`. -/
structure ProductStats where
  total_products : Int
  total_value : Rat
  total_brands : Int
  avg_profit_margin : Rat
  top_brands : List BrandStats
deriving DecidableEq

/-- serde decoding of `ProductStats`. -/
def decodeProductStats : Jval → Except String ProductStats
  | Jval.obj fields => do
    let total_products ← reqField fields "total_products" decodeI64
    let total_value ← reqField fields "total_inventory_value" decodeF64
    let total_brands ← reqField fields "total_brands" decodeI64
    let avg_profit_margin ← defField fields "avg_profit_margin" decodeF64 0
    let top_brands ← reqField fields "top_brands" (decodeArr decodeBrandStats)
    Except.ok ⟨total_products, total_value, total_brands, avg_profit_margin,
      top_brands⟩
  | _ => Except.error "ProductStats: expected object"

/-- Data contract `HealthStatus` (api.rs lines 23-32). -/
structure HealthStatus where
  status : String
  timestamp : String
  version : String
  environment : String
  uptime_seconds : Nat
  checks_summary : List (String × String)
  components : HMap

/-- serde decoding of `HealthStatus`. -/
def decodeHealthStatus : Jval → Except String HealthStatus
  | Jval.obj fields => do
    let status ← reqField fields "status" decodeString
    let timestamp ← reqField fields "timestamp" decodeString
    let version ← reqField fields "version" decodeString
    let environment ← reqField fields "environment" decodeString
    let uptime_seconds ← reqField fields "uptime_seconds" decodeU64
    let checks_summary ← reqField fields "checks_summary" decodeStrMap
    let components ← reqField fields "components" decodeHMap
    Except.ok ⟨status, timestamp, version, environment, uptime_seconds,
      checks_summary, components⟩
  | _ => Except.error "HealthStatus: expected object"

/-- Command-layer `SystemStatus` (commands.rs lines 7-14). -/
structure SystemStatus where
  api_connected : Bool
  database_healthy : Bool
  last_check : String
  version : String
  environment : String
deriving DecidableEq

/-- Data contract `ImportStatus` (api.rs lines 86-96); the chrono timestamps
are kept as their string renderings, `f32` as `Rat`.  No claim depends on its
decoding, so only the shape is modelled. -/
structure ImportStatus where
  id : Nat
  source_type : String
  status : String
  progress : Rat
  records_processed : Int
  records_failed : Int
  created_at : String
  completed_at : Option String
deriving DecidableEq

/-- Data contract `DashboardMetrics` (api.rs lines 98-106), as returned to
the UI. -/
structure DashboardMetrics where
  total_inventory_value : Rat
  monthly_sales : Rat
  profit_margin : Rat
  active_listings : Int
  pending_imports : Int
  recent_transactions : List Jval

/-- Data contract `InventoryMetrics` (api.rs lines 117-127). -/
structure InventoryMetrics where
  total_items : Int
  items_in_stock : Int
  items_sold : Int
  items_listed : Int
  total_inventory_value : Rat
  average_purchase_price : Rat
  top_brands : List Jval
  status_breakdown : HMap

/-- serde decoding of `InventoryMetrics`. -/
def decodeInventoryMetrics : Jval → Except String InventoryMetrics
  | Jval.obj fields => do
    let total_items ← reqField fields "total_items" decodeI64
    let items_in_stock ← reqField fields "items_in_stock" decodeI64
    let items_sold ← reqField fields "items_sold" decodeI64
    let items_listed ← reqField fields "items_listed" decodeI64
    let total_inventory_value ← reqField fields "total_inventory_value" decodeF64
    let average_purchase_price ← reqField fields "average_purchase_price" decodeF64
    let top_brands ← reqField fields "top_brands" (decodeArr Except.ok)
    let status_breakdown ← reqField fields "status_breakdown" decodeHMap
    Except.ok ⟨total_items, items_in_stock, items_sold, items_listed,
      total_inventory_value, average_purchase_price, top_brands,
      status_breakdown⟩
  | _ => Except.error "InventoryMetrics: expected object"

/-- Data contract `SalesMetrics` (api.rs lines 129-132). -/
structure SalesMetrics where
  recent_activity : List Jval

/-- serde decoding of `SalesMetrics`. -/
def decodeSalesMetrics : Jval → Except String SalesMetrics
  | Jval.obj fields => do
    let recent_activity ← reqField fields "recent_activity" (decodeArr Except.ok)
    Except.ok ⟨recent_activity⟩
  | _ => Except.error "SalesMetrics: expected object"

/-- Data contract `SystemMetrics` (api.rs lines 134-140); `uptime_seconds`
is `f64` in the source. -/
structure SystemMetrics where
  status : String
  uptime_seconds : Rat
  environment : String
  version : String
deriving DecidableEq

/-- serde decoding of `SystemMetrics`. -/
def decodeSystemMetrics : Jval → Except String SystemMetrics
  | Jval.obj fields => do
    let status ← reqField fields "status" decodeString
    let uptime_seconds ← reqField fields "uptime_seconds" decodeF64
    let environment ← reqField fields "environment" decodeString
    let version ← reqField fields "version" decodeString
    Except.ok ⟨status, uptime_seconds, environment, version⟩
  | _ => Except.error "SystemMetrics: expected object"

/-- Data contract `PerformanceMetrics` (api.rs lines 142-147). -/
structure PerformanceMetrics where
  total_requests : Int
  error_rate : Rat
  avg_response_time : Rat
deriving DecidableEq

/-- serde decoding of `PerformanceMetrics`. -/
def decodePerformanceMetrics : Jval → Except String PerformanceMetrics
  | Jval.obj fields => do
    let total_requests ← reqField fields "total_requests" decodeI64
    let error_rate ← reqField fields "error_rate" decodeF64
    let avg_response_time ← reqField fields "avg_response_time" decodeF64
    Except.ok ⟨total_requests, error_rate, avg_response_time⟩
  | _ => Except.error "PerformanceMetrics: expected object"

/-- Data contract `ApiDashboardMetrics` (api.rs lines 108-115). -/
structure ApiDashboardMetrics where
  timestamp : String
  inventory : InventoryMetrics
  sales : SalesMetrics
  system : SystemMetrics
  performance : PerformanceMetrics

/-- serde decoding of `ApiDashboardMetrics`. -/
def decodeApiDashboardMetrics : Jval → Except String ApiDashboardMetrics
  | Jval.obj fields => do
    let timestamp ← reqField fields "timestamp" decodeString
    let inventory ← reqField fields "inventory" decodeInventoryMetrics
    let sales ← reqField fields "sales" decodeSalesMetrics
    let system ← reqField fields "system" decodeSystemMetrics
    let performance ← reqField fields "performance" decodePerformanceMetrics
    Except.ok ⟨timestamp, inventory, sales, system, performance⟩
  | _ => Except.error "ApiDashboardMetrics: expected object"

/-- The transport client (api.rs lines 10-14): one base URL; the reqwest
handle itself carries no behaviour that the claims touch. -/
structure ApiClient where
  base_url : String

/-- `ApiClient::new` (api.rs lines 621-626). -/
def ApiClient.new (base_url : String) : ApiClient := ⟨base_url⟩

/-- URL built by `ApiClient::get_inventory_items` (api.rs lines 636-639). -/
def ApiClient.get_inventory_items_url (c : ApiClient) (limit : Option Int) : String :=
  let url := c.base_url ++ "/api/v1/inventory"
  match limit with
  | some l => url ++ "?limit=" ++ toString l
  | none => url

/-- Body handling of `ApiClient::get_inventory_items` (api.rs lines 641-670):
the argument is the outcome of `response.json::<Value>()`; a present `items`
field is decoded as the item list, an absent one falls back to decoding the
whole body, and a decode failure in either stage yields `Ok(vec![])`. -/
def ApiClient.get_inventory_items (resp : Except String Jval) :
    Except String (List InventoryItem) :=
  match resp with
  | Except.error e => Except.error e
  | Except.ok response_json =>
    match response_json.getKey "items" with
    | some items_value =>
      match decodeArr decodeInventoryItem items_value with
      | Except.ok items => Except.ok items
      | Except.error _ => Except.ok []
    | none =>
      match decodeArr decodeInventoryItem response_json with
      | Except.ok items => Except.ok items
      | Except.error _ => Except.ok []

/-- Body handling of `ApiClient::get_product_stats` (api.rs lines 673-678). -/
def ApiClient.get_product_stats (resp : Except String Jval) :
    Except String ProductStats :=
  match resp with
  | Except.error e => Except.error e
  | Except.ok body => decodeProductStats body

/-- Body handling of `ApiClient::health_check` (api.rs lines 628-633). -/
def ApiClient.health_check (resp : Except String Jval) :
    Except String HealthStatus :=
  match resp with
  | Except.error e => Except.error e
  | Except.ok body => decodeHealthStatus body

/-- The JSON payload posted by `ApiClient::run_database_query`
(api.rs line 714). -/
def ApiClient.run_database_query_payload (query : String) : Jval :=
  Jval.obj [("query", Jval.str query)]

/-- Body handling of `ApiClient::run_database_query` (api.rs lines 712-718):
`Vec<HashMap<String, Value>>`. -/
def ApiClient.run_database_query (resp : Except String Jval) :
    Except String (List HMap) :=
  match resp with
  | Except.error e => Except.error e
  | Except.ok body => decodeArr decodeHMap body

/-- Body handling of `ApiClient::get_dashboard_metrics` (api.rs lines
694-710): decode `ApiDashboardMetrics`, then rebuild the simplified
`DashboardMetrics` with the three hard-coded zeroes. -/
def ApiClient.get_dashboard_metrics (resp : Except String Jval) :
    Except String DashboardMetrics :=
  match resp with
  | Except.error e => Except.error e
  | Except.ok body =>
    match decodeApiDashboardMetrics body with
    | Except.error e => Except.error e
    | Except.ok api_metrics =>
      Except.ok ⟨api_metrics.inventory.total_inventory_value, 0, 0,
        api_metrics.inventory.items_listed, 0,
        api_metrics.sales.recent_activity⟩

/-- Body handling of `ApiClient::get_stockx_listings` (api.rs lines 838-854):
take `data.listings` as an array and turn each element into a key-value map,
or return the empty vector when the array is absent. -/
def ApiClient.get_stockx_listings (resp : Except String Jval) :
    Except String (List HMap) :=
  match resp with
  | Except.error e => Except.error e
  | Except.ok data =>
    match ((data.idx "data").idx "listings").asArr with
    | some listings => Except.ok (listings.map jvalToHMap)
    | none => Except.ok []

/-- URL built by `ApiClient::get_stockx_listings` (api.rs lines 823-836). -/
def ApiClient.get_stockx_listings_url (c : ApiClient) (status : Option String)
    (limit : Option Int) : String :=
  let params :=
    (match status with | some s => ["status=" ++ s] | none => []) ++
    (match limit with | some l => ["limit=" ++ toString l] | none => [])
  let url := c.base_url ++ "/api/v1/inventory/stockx-listings"
  match params with
  | [] => url
  | _ => url ++ "?" ++ String.intercalate "&" params

/-- Body handling of `ApiClient::get_alias_listings` (api.rs lines 884-900),
textually identical to the StockX variant. -/
def ApiClient.get_alias_listings (resp : Except String Jval) :
    Except String (List HMap) :=
  match resp with
  | Except.error e => Except.error e
  | Except.ok data =>
    match ((data.idx "data").idx "listings").asArr with
    | some listings => Except.ok (listings.map jvalToHMap)
    | none => Except.ok []

/-- URL built by `ApiClient::get_alias_listings` (api.rs lines 869-882). -/
def ApiClient.get_alias_listings_url (c : ApiClient) (status : Option String)
    (limit : Option Int) : String :=
  let params :=
    (match status with | some s => ["status=" ++ s] | none => []) ++
    (match limit with | some l => ["limit=" ++ toString l] | none => [])
  let url := c.base_url ++ "/api/v1/inventory/alias-listings"
  match params with
  | [] => url
  | _ => url ++ "?" ++ String.intercalate "&" params

/-- URL built by `ApiClient::get_import_status` (api.rs line 688); the uuid
argument is kept abstract as its 128-bit value. -/
def ApiClient.get_import_status_url (c : ApiClient) (batch_id : Nat) : String :=
  c.base_url ++ "/api/v1/integration/import/" ++ toString batch_id ++ "/status"

/-- Command `get_inventory_items` (commands.rs lines 39-54): wrap the client
result, prefixing transport failure with the operation name. -/
def Commands.get_inventory_items (_limit : Option Int)
    (resp : Except String Jval) : Except String (List InventoryItem) :=
  match ApiClient.get_inventory_items resp with
  | Except.ok items => Except.ok items
  | Except.error e => Except.error ("Failed to fetch inventory: " ++ e)

/-- Command `get_product_stats` (commands.rs lines 95-103). -/
def Commands.get_product_stats (resp : Except String Jval) :
    Except String ProductStats :=
  match ApiClient.get_product_stats resp with
  | Except.ok stats => Except.ok stats
  | Except.error e => Except.error ("Failed to fetch product stats: " ++ e)

/-- Command `get_dashboard_metrics` (commands.rs lines 129-137). -/
def Commands.get_dashboard_metrics (resp : Except String Jval) :
    Except String DashboardMetrics :=
  match ApiClient.get_dashboard_metrics resp with
  | Except.ok metrics => Except.ok metrics
  | Except.error e => Except.error ("Failed to fetch dashboard metrics: " ++ e)

/-- Command `run_database_query` (commands.rs lines 139-153).  The second
component is the list of queries handed to the transport client: the guard
rejects non-SELECT text before any client call, and a passing query is handed
over unchanged. -/
def Commands.run_database_query (resp : Except String Jval) (query : String) :
    Except String (List HMap) × List String :=
  let query_trimmed := toLowerStr (trimStr query)
  if startsWithStr query_trimmed "select" then
    (match ApiClient.run_database_query resp with
     | Except.ok results => Except.ok results
     | Except.error e => Except.error ("Query failed: " ++ e), [query])
  else
    (Except.error "Only SELECT queries are allowed for security reasons", [])

/-- Command `get_import_status` (commands.rs lines 116-127).  The second
component is the list of uuid values handed to the transport client: a string
that does not parse is rejected before any client call. -/
def Commands.get_import_status (resp : Except String ImportStatus)
    (batch_id : String) : Except String ImportStatus × List Nat :=
  match parseUuid batch_id with
  | none => (Except.error ("Invalid batch ID: " ++ uuidErrText batch_id), [])
  | some uuid =>
    (match resp with
     | Except.ok status => Except.ok status
     | Except.error e => Except.error ("Failed to fetch import status: " ++ e),
     [uuid])

/-- Command `get_system_status` (commands.rs lines 165-194).  `now` stands
for `chrono::Utc::now().to_rfc3339()`, the freshly generated timestamp of the
disconnected branch. -/
def Commands.get_system_status (resp : Except String Jval) (now : String) :
    Except String SystemStatus :=
  match ApiClient.health_check resp with
  | Except.ok health =>
    let database_healthy :=
      match ((lookupField health.components "database").bind
          (fun db => db.getKey "status")).bind Jval.asStr with
      | some status => status == "healthy"
      | none => false
    Except.ok ⟨true, database_healthy, health.timestamp, health.version,
      health.environment⟩
  | Except.error _ =>
    Except.ok ⟨false, false, now, "unknown", "unknown"⟩

/-- Command `http_request` (commands.rs lines 63-93).  The oracle is layered:
the outer `Except` is the outcome of `send()`, the inner one of
`response.json::<Value>()`.  The second component records the one request
issued as (upper-cased method, full URL, body); an unsupported method returns
before any request. -/
def Commands.http_request (resp : Except String (Except String Jval))
    (method url : String) (body : Option Jval) :
    Except String Jval × List (String × String × Option Jval) :=
  let full_url :=
    if startsWithStr url "http" then url else "http://localhost:8000" ++ url
  let m := toUpperStr method
  if m = "GET" ∨ m = "POST" ∨ m = "PUT" ∨ m = "DELETE" then
    (match resp with
     | Except.error e => Except.error ("Request failed: " ++ e)
     | Except.ok (Except.error e) =>
       Except.error ("Failed to parse response: " ++ e)
     | Except.ok (Except.ok json) => Except.ok json,
     [(m, full_url, body)])
  else
    (Except.error "Unsupported HTTP method", [])

/-- Command `get_stockx_listings` (commands.rs lines 300-308). -/
def Commands.get_stockx_listings (resp : Except String Jval) :
    Except String (List HMap) :=
  match ApiClient.get_stockx_listings resp with
  | Except.ok listings => Except.ok listings
  | Except.error e => Except.error ("Failed to get StockX listings: " ++ e)

/-- Command `get_alias_listings` (commands.rs lines 310-318). -/
def Commands.get_alias_listings (resp : Except String Jval) :
    Except String (List HMap) :=
  match ApiClient.get_alias_listings resp with
  | Except.ok listings => Except.ok listings
  | Except.error e => Except.error ("Failed to get Alias listings: " ++ e)

/-- Field list of a minimal valid inventory record (all required fields
present, all optional fields absent). -/
def invFields (idStr name : String) (q : Int) : List (String × Jval) :=
  [("id", Jval.str idStr),
   ("product_name", Jval.str name),
   ("size", Jval.str "10"),
   ("quantity", Jval.num (Jnum.int q)),
   ("supplier", Jval.str "StockX"),
   ("status", Jval.str "in_stock"),
   ("created_at", Jval.str "2024-01-01T00:00:00Z"),
   ("updated_at", Jval.str "2024-01-02T00:00:00Z")]

/-- The decoded form of `invFields`. -/
def invItemOf (idv : Nat) (name : String) (q : Int) : InventoryItem :=
  ⟨idv, none, name, none, none, "10", q, none, none, "StockX", "in_stock",
   none, "2024-01-01T00:00:00Z", "2024-01-02T00:00:00Z"⟩

/-- A backend body whose `items` field holds exactly nine valid records. -/
def nineItemsBody : Jval :=
  Jval.obj [("items", Jval.arr [
    Jval.obj (invFields "00000000-0000-0000-0000-000000000001" "Shoe 1" 1),
    Jval.obj (invFields "00000000-0000-0000-0000-000000000002" "Shoe 2" 2),
    Jval.obj (invFields "00000000-0000-0000-0000-000000000003" "Shoe 3" 3),
    Jval.obj (invFields "00000000-0000-0000-0000-000000000004" "Shoe 4" 4),
    Jval.obj (invFields "00000000-0000-0000-0000-000000000005" "Shoe 5" 5),
    Jval.obj (invFields "00000000-0000-0000-0000-000000000006" "Shoe 6" 6),
    Jval.obj (invFields "00000000-0000-0000-0000-000000000007" "Shoe 7" 7),
    Jval.obj (invFields "00000000-0000-0000-0000-000000000008" "Shoe 8" 8),
    Jval.obj (invFields "00000000-0000-0000-0000-000000000009" "Shoe 9" 9)]),
    ("total", Jval.num (Jnum.int 9))]

/-- The nine decoded records, in order. -/
def nineItemsDecoded : List InventoryItem :=
  [invItemOf 1 "Shoe 1" 1, invItemOf 2 "Shoe 2" 2, invItemOf 3 "Shoe 3" 3,
   invItemOf 4 "Shoe 4" 4, invItemOf 5 "Shoe 5" 5, invItemOf 6 "Shoe 6" 6,
   invItemOf 7 "Shoe 7" 7, invItemOf 8 "Shoe 8" 8, invItemOf 9 "Shoe 9" 9]

/-- A product-stats body with the defaulted `avg_profit_margin` field
absent and every required field present. -/
def psNoAvgFields : List (String × Jval) :=
  [("total_products", Jval.num (Jnum.int 3)),
   ("total_inventory_value", Jval.num (Jnum.int 100)),
   ("total_brands", Jval.num (Jnum.int 2)),
   ("top_brands", Jval.arr [])]

/-- A product-stats body missing only the required JSON field
`total_inventory_value`. -/
def psNoValueFields : List (String × Jval) :=
  [("total_products", Jval.num (Jnum.int 3)),
   ("total_brands", Jval.num (Jnum.int 2)),
   ("avg_profit_margin", Jval.num (Jnum.int 1)),
   ("top_brands", Jval.arr [])]

/-- A complete dashboard-metrics backend body. -/
def dashBody : Jval :=
  Jval.obj [
    ("timestamp", Jval.str "2024-01-01T00:00:00Z"),
    ("inventory", Jval.obj [
      ("total_items", Jval.num (Jnum.int 5)),
      ("items_in_stock", Jval.num (Jnum.int 3)),
      ("items_sold", Jval.num (Jnum.int 1)),
      ("items_listed", Jval.num (Jnum.int 2)),
      ("total_inventory_value", Jval.num (Jnum.int 2500)),
      ("average_purchase_price", Jval.num (Jnum.int 120)),
      ("top_brands", Jval.arr []),
      ("status_breakdown", Jval.obj [])]),
    ("sales", Jval.obj [("recent_activity", Jval.arr [Jval.str "sale1"])]),
    ("system", Jval.obj [
      ("status", Jval.str "ok"),
      ("uptime_seconds", Jval.num (Jnum.float (mkRat 15 2))),
      ("environment", Jval.str "dev"),
      ("version", Jval.str "1.0")]),
    ("performance", Jval.obj [
      ("total_requests", Jval.num (Jnum.int 10)),
      ("error_rate", Jval.num (Jnum.int 0)),
      ("avg_response_time", Jval.num (Jnum.int 3))])]

/-- The decoded form of `dashBody`. -/
def dashAm : ApiDashboardMetrics :=
  ⟨"2024-01-01T00:00:00Z",
   ⟨5, 3, 1, 2, mkRat 2500 1, mkRat 120 1, [], []⟩,
   ⟨[Jval.str "sale1"]⟩,
   ⟨"ok", mkRat 15 2, "dev", "1.0"⟩,
   ⟨10, mkRat 0 1, mkRat 3 1⟩⟩

theorem ebind_ok {α β : Type} (a : α) (f : α → Except String β) :
    (Except.ok a >>= f) = f a := rfl

theorem ebind_error {α β : Type} (e : String) (f : α → Except String β) :
    ((Except.error e : Except String α) >>= f) = Except.error e := rfl

theorem ebind_eq_ok {α β : Type} {x : Except String α} {f : α → Except String β}
    {b : β} : x >>= f = Except.ok b ↔
      ∃ a, x = Except.ok a ∧ f a = Except.ok b := by
  cases x with
  | ok a => simp [ebind_ok]
  | error e => simp [ebind_error]

/-- C1: a query whose trimmed, case-folded form does not begin with "select"
makes `run_database_query` return the fixed error with no client call issued,
for every transport outcome; a query that does begin with "select" is handed
to the transport client unchanged. -/
theorem run_database_query_select_gate (query : String)
    (resp : Except String Jval) :
    (startsWithStr (toLowerStr (trimStr query)) "select" = false →
      Commands.run_database_query resp query =
        (Except.error "Only SELECT queries are allowed for security reasons",
         [])) ∧
    (startsWithStr (toLowerStr (trimStr query)) "select" = true →
      (Commands.run_database_query resp query).2 = [query]) := by
  constructor <;> intro h <;> simp [Commands.run_database_query, h]

/-- Witness for C1 at two concrete queries. -/
theorem run_database_query_select_gate_witness :
    Commands.run_database_query (Except.error "down") "DROP TABLE users" =
      (Except.error "Only SELECT queries are allowed for security reasons",
       []) ∧
    (Commands.run_database_query (Except.error "down") "  SeLeCt 1").2 =
      ["  SeLeCt 1"] :=
  ⟨(run_database_query_select_gate "DROP TABLE users"
      (Except.error "down")).1 (by decide),
   (run_database_query_select_gate "  SeLeCt 1"
      (Except.error "down")).2 (by decide)⟩

/-- C2: `get_system_status` returns a result for every outcome of the
health-check call, and on any health-check failure the result is the
synthetic disconnected status: connectivity false, database unhealthy, the
freshly generated timestamp `now`, version and environment "unknown". -/
theorem get_system_status_never_errors (resp : Except String Jval)
    (now : String) :
    (∃ st, Commands.get_system_status resp now = Except.ok st) ∧
    (∀ e, ApiClient.health_check resp = Except.error e →
      Commands.get_system_status resp now =
        Except.ok ⟨false, false, now, "unknown", "unknown"⟩) := by
  cases h : ApiClient.health_check resp with
  | ok health =>
    constructor
    · simp [Commands.get_system_status, h]
    · intro e he
      exact Except.noConfusion he
  | error e0 =>
    constructor
    · simp [Commands.get_system_status, h]
    · intro e _
      simp [Commands.get_system_status, h]

/-- Witness for C2 at a concrete transport failure. -/
theorem get_system_status_never_errors_witness :
    Commands.get_system_status (Except.error "connection refused")
        "2024-01-01T00:00:00+00:00" =
      Except.ok ⟨false, false, "2024-01-01T00:00:00+00:00", "unknown",
        "unknown"⟩ :=
  (get_system_status_never_errors (Except.error "connection refused")
      "2024-01-01T00:00:00+00:00").2 "connection refused" rfl

/-- C3: the inventory-listing body handling is a two-stage fallback that
never reports a decode error: a present `items` field is decoded as the item
list, an absent one falls back to decoding the whole body, and a decode
failure in either stage yields the empty vector inside `Ok`. -/
theorem get_inventory_items_two_stage_fallback (body : Jval) :
    (∃ items, ApiClient.get_inventory_items (Except.ok body) =
      Except.ok items) ∧
    (∀ v, body.getKey "items" = some v →
      (∀ items, decodeArr decodeInventoryItem v = Except.ok items →
        ApiClient.get_inventory_items (Except.ok body) = Except.ok items) ∧
      (∀ e, decodeArr decodeInventoryItem v = Except.error e →
        ApiClient.get_inventory_items (Except.ok body) = Except.ok [])) ∧
    (body.getKey "items" = none →
      (∀ items, decodeArr decodeInventoryItem body = Except.ok items →
        ApiClient.get_inventory_items (Except.ok body) = Except.ok items) ∧
      (∀ e, decodeArr decodeInventoryItem body = Except.error e →
        ApiClient.get_inventory_items (Except.ok body) = Except.ok [])) := by
  refine ⟨?_, ?_, ?_⟩
  · cases hk : body.getKey "items" with
    | some v =>
      cases hd : decodeArr decodeInventoryItem v with
      | ok items =>
        exact ⟨items, by simp [ApiClient.get_inventory_items, hk, hd]⟩
      | error e =>
        exact ⟨[], by simp [ApiClient.get_inventory_items, hk, hd]⟩
    | none =>
      cases hd : decodeArr decodeInventoryItem body with
      | ok items =>
        exact ⟨items, by simp [ApiClient.get_inventory_items, hk, hd]⟩
      | error e =>
        exact ⟨[], by simp [ApiClient.get_inventory_items, hk, hd]⟩
  · intro v hk
    exact ⟨fun items hd => by simp [ApiClient.get_inventory_items, hk, hd],
      fun e hd => by simp [ApiClient.get_inventory_items, hk, hd]⟩
  · intro hk
    exact ⟨fun items hd => by simp [ApiClient.get_inventory_items, hk, hd],
      fun e hd => by simp [ApiClient.get_inventory_items, hk, hd]⟩

/-- Witness for C3: a body whose `items` field fails to decode gives the
empty vector, and a body with no `items` field that decodes as a whole gives
its items. -/
theorem get_inventory_items_two_stage_fallback_witness :
    ApiClient.get_inventory_items
        (Except.ok (Jval.obj [("items", Jval.str "not an array")])) =
      Except.ok [] ∧
    ApiClient.get_inventory_items (Except.ok (Jval.arr [])) =
      Except.ok [] :=
  ⟨((get_inventory_items_two_stage_fallback
        (Jval.obj [("items", Jval.str "not an array")])).2.1
      (Jval.str "not an array") rfl).2 "expected array" rfl,
   ((get_inventory_items_two_stage_fallback (Jval.arr [])).2.2
      rfl).1 [] rfl⟩

/-- C4 (counterexample): with the malformed body whose `items` field is the
string "not an array", the `get_inventory_items` command succeeds with an
empty vector instead of failing, so the claim that it "fails rather than
succeeding when its response is malformed" is false at this input. -/
theorem get_inventory_items_succeeds_on_malformed :
    Commands.get_inventory_items (some 10)
        (Except.ok (Jval.obj [("items", Jval.str "not an array")])) =
      Except.ok [] := rfl

/-- C4 (amended): the modelled commands other than `get_system_status`
propagate transport-level failure as an error string of the operation name
plus the underlying error text; `get_inventory_items`, however, always
succeeds once the body is JSON, swallowing shape mismatches into an empty
collection. -/
theorem commands_propagate_transport_failure (e : String) (limit : Option Int)
    (q uid : String) (body : Jval) :
    Commands.get_product_stats (Except.error e) =
      Except.error ("Failed to fetch product stats: " ++ e) ∧
    Commands.get_dashboard_metrics (Except.error e) =
      Except.error ("Failed to fetch dashboard metrics: " ++ e) ∧
    Commands.get_inventory_items limit (Except.error e) =
      Except.error ("Failed to fetch inventory: " ++ e) ∧
    Commands.get_stockx_listings (Except.error e) =
      Except.error ("Failed to get StockX listings: " ++ e) ∧
    Commands.get_alias_listings (Except.error e) =
      Except.error ("Failed to get Alias listings: " ++ e) ∧
    (startsWithStr (toLowerStr (trimStr q)) "select" = true →
      (Commands.run_database_query (Except.error e) q).1 =
        Except.error ("Query failed: " ++ e)) ∧
    (∀ u, parseUuid uid = some u →
      (Commands.get_import_status (Except.error e) uid).1 =
        Except.error ("Failed to fetch import status: " ++ e)) ∧
    (∃ items, Commands.get_inventory_items limit (Except.ok body) =
      Except.ok items) := by
  refine ⟨rfl, rfl, rfl, rfl, rfl, ?_, ?_, ?_⟩
  · intro h
    simp [Commands.run_database_query, ApiClient.run_database_query, h]
  · intro u h
    simp [Commands.get_import_status, h]
  · cases hk : body.getKey "items" with
    | some v =>
      cases hd : decodeArr decodeInventoryItem v with
      | ok items =>
        exact ⟨items, by
          simp [Commands.get_inventory_items, ApiClient.get_inventory_items,
            hk, hd]⟩
      | error e1 =>
        exact ⟨[], by
          simp [Commands.get_inventory_items, ApiClient.get_inventory_items,
            hk, hd]⟩
    | none =>
      cases hd : decodeArr decodeInventoryItem body with
      | ok items =>
        exact ⟨items, by
          simp [Commands.get_inventory_items, ApiClient.get_inventory_items,
            hk, hd]⟩
      | error e1 =>
        exact ⟨[], by
          simp [Commands.get_inventory_items, ApiClient.get_inventory_items,
            hk, hd]⟩

/-- Witness for the amended C4 at concrete inputs discharging both guard
hypotheses. -/
theorem commands_propagate_transport_failure_witness :
    (Commands.run_database_query (Except.error "boom") "select 1").1 =
      Except.error ("Query failed: boom") ∧
    (Commands.get_import_status (Except.error "boom")
        "00000000-0000-0000-0000-000000000001").1 =
      Except.error ("Failed to fetch import status: boom") :=
  ⟨(commands_propagate_transport_failure "boom" (some 1) "select 1"
      "00000000-0000-0000-0000-000000000001" Jval.null).2.2.2.2.2.1
      (by decide),
   (commands_propagate_transport_failure "boom" (some 1) "select 1"
      "00000000-0000-0000-0000-000000000001" Jval.null).2.2.2.2.2.2.1 1
      (by decide)⟩

/-- C5: both marketplace listing operations return the empty vector when the
nested `data.listings` array is absent (whatever the shape of the body), and
when it is present they return each element as a key-value map. -/
theorem marketplace_listings_permissive (body : Jval) :
    (((body.idx "data").idx "listings").asArr = none →
      ApiClient.get_stockx_listings (Except.ok body) = Except.ok [] ∧
      ApiClient.get_alias_listings (Except.ok body) = Except.ok []) ∧
    (∀ listings, ((body.idx "data").idx "listings").asArr = some listings →
      ApiClient.get_stockx_listings (Except.ok body) =
        Except.ok (listings.map jvalToHMap) ∧
      ApiClient.get_alias_listings (Except.ok body) =
        Except.ok (listings.map jvalToHMap)) := by
  constructor
  · intro h
    constructor <;>
      simp [ApiClient.get_stockx_listings, ApiClient.get_alias_listings, h]
  · intro listings h
    constructor <;>
      simp [ApiClient.get_stockx_listings, ApiClient.get_alias_listings, h]

/-- Witness for C5: a malformed body gives the empty vector; a present
array gives maps, object elements as their key-value maps. -/
theorem marketplace_listings_permissive_witness :
    (ApiClient.get_stockx_listings (Except.ok (Jval.str "oops")) =
        Except.ok [] ∧
      ApiClient.get_alias_listings (Except.ok (Jval.str "oops")) =
        Except.ok []) ∧
    (ApiClient.get_stockx_listings (Except.ok (Jval.obj [("data",
        Jval.obj [("listings", Jval.arr [Jval.obj [("a", Jval.null)],
          Jval.num (Jnum.int 5)])])])) =
        Except.ok [[("a", Jval.null)], []] ∧
      ApiClient.get_alias_listings (Except.ok (Jval.obj [("data",
        Jval.obj [("listings", Jval.arr [Jval.obj [("a", Jval.null)],
          Jval.num (Jnum.int 5)])])])) =
        Except.ok [[("a", Jval.null)], []]) :=
  ⟨(marketplace_listings_permissive (Jval.str "oops")).1 rfl,
   (marketplace_listings_permissive (Jval.obj [("data",
      Jval.obj [("listings", Jval.arr [Jval.obj [("a", Jval.null)],
        Jval.num (Jnum.int 5)])])])).2
      [Jval.obj [("a", Jval.null)], Jval.num (Jnum.int 5)] rfl⟩

/-- C6: a batch identifier that does not parse as a UUID makes
`get_import_status` return an error with no client call issued, for every
transport outcome; a parsing identifier issues the status request with the
parsed value. -/
theorem get_import_status_uuid_gate (batch_id : String)
    (resp : Except String ImportStatus) :
    (parseUuid batch_id = none →
      (∀ st, (Commands.get_import_status resp batch_id).1 ≠ Except.ok st) ∧
      (Commands.get_import_status resp batch_id).2 = []) ∧
    (∀ u, parseUuid batch_id = some u →
      (Commands.get_import_status resp batch_id).2 = [u]) := by
  constructor
  · intro h
    constructor
    · intro st
      simp [Commands.get_import_status, h]
    · simp [Commands.get_import_status, h]
  · intro u h
    simp [Commands.get_import_status, h]

/-- Witness for C6 at a malformed and a well-formed batch identifier. -/
theorem get_import_status_uuid_gate_witness :
    (Commands.get_import_status (Except.error "down") "nope").2 = [] ∧
    (Commands.get_import_status (Except.error "down")
        "00000000-0000-0000-0000-0000000000ff").2 = [255] :=
  ⟨((get_import_status_uuid_gate "nope" (Except.error "down")).1
      (by decide)).2,
   (get_import_status_uuid_gate "00000000-0000-0000-0000-0000000000ff"
      (Except.error "down")).2 255 (by decide)⟩

/-- C7: with limit 10 the inventory request URL carries `?limit=10`; a body
whose `items` field holds exactly nine valid records decodes to exactly those
nine items in order, and a body whose `items` field is the string
"not an array" yields the empty collection. -/
theorem inventory_nine_records_example :
    (ApiClient.new "http://localhost:8000").get_inventory_items_url
        (some 10) = "http://localhost:8000/api/v1/inventory?limit=10" ∧
    Commands.get_inventory_items (some 10) (Except.ok nineItemsBody) =
      Except.ok nineItemsDecoded ∧
    Commands.get_inventory_items (some 10)
        (Except.ok (Jval.obj [("items", Jval.str "not an array")])) =
      Except.ok [] := by
  refine ⟨rfl, ?_, rfl⟩
  rfl

/-- C8 (counterexample): a product-stats body missing only the JSON field
`total_inventory_value` fails to decode with a missing-field error, so no
"current-value" style default substitutes zero for it; the contract's only
default is `avg_profit_margin`, and no contract carries a SKU field at all. -/
theorem product_stats_missing_value_fails :
    decodeProductStats (Jval.obj psNoValueFields) =
      Except.error "missing field total_inventory_value" := rfl

/-- C8 (amended): decoding is structural with at most one default: the
defaulted `avg_profit_margin` decodes to zero when absent, the required
`total_inventory_value` field makes decoding fail when absent, optional
inventory fields decode to an absent value when missing, and when every
field decoder succeeds the whole decode succeeds with those values. -/
theorem contract_decoding_defaults (fields : List (String × Jval)) :
    (lookupField fields "avg_profit_margin" = none →
      ∀ ps, decodeProductStats (Jval.obj fields) = Except.ok ps →
        ps.avg_profit_margin = 0) ∧
    (lookupField fields "total_inventory_value" = none →
      ∀ ps, decodeProductStats (Jval.obj fields) ≠ Except.ok ps) ∧
    (∀ it, decodeInventoryItem (Jval.obj fields) = Except.ok it →
      (lookupField fields "brand_name" = none → it.brand_name = none) ∧
      (lookupField fields "purchase_price" = none →
        it.purchase_price = none)) ∧
    (∀ tp tv tb avg topb,
      reqField fields "total_products" decodeI64 = Except.ok tp →
      reqField fields "total_inventory_value" decodeF64 = Except.ok tv →
      reqField fields "total_brands" decodeI64 = Except.ok tb →
      defField fields "avg_profit_margin" decodeF64 0 = Except.ok avg →
      reqField fields "top_brands" (decodeArr decodeBrandStats) =
        Except.ok topb →
      decodeProductStats (Jval.obj fields) =
        Except.ok ⟨tp, tv, tb, avg, topb⟩) := by
  refine ⟨?_, ?_, ?_, ?_⟩
  · intro hA ps hps
    simp only [decodeProductStats] at hps
    obtain ⟨tp, h1, hps⟩ := ebind_eq_ok.mp hps
    obtain ⟨tv, h2, hps⟩ := ebind_eq_ok.mp hps
    obtain ⟨tb, h3, hps⟩ := ebind_eq_ok.mp hps
    obtain ⟨avg, h4, hps⟩ := ebind_eq_ok.mp hps
    obtain ⟨topb, h5, hps⟩ := ebind_eq_ok.mp hps
    injection hps with hps
    subst hps
    simp [defField, hA] at h4
    simp [h4]
  · intro hV ps hps
    simp only [decodeProductStats] at hps
    obtain ⟨tp, h1, hps⟩ := ebind_eq_ok.mp hps
    obtain ⟨tv, h2, hps⟩ := ebind_eq_ok.mp hps
    simp [reqField, hV] at h2
  · intro it hit
    simp only [decodeInventoryItem] at hit
    obtain ⟨idv, h1, hit⟩ := ebind_eq_ok.mp hit
    obtain ⟨pid, h2, hit⟩ := ebind_eq_ok.mp hit
    obtain ⟨pname, h3, hit⟩ := ebind_eq_ok.mp hit
    obtain ⟨bname, h4, hit⟩ := ebind_eq_ok.mp hit
    obtain ⟨cname, h5, hit⟩ := ebind_eq_ok.mp hit
    obtain ⟨sz, h6, hit⟩ := ebind_eq_ok.mp hit
    obtain ⟨qty, h7, hit⟩ := ebind_eq_ok.mp hit
    obtain ⟨pprice, h8, hit⟩ := ebind_eq_ok.mp hit
    obtain ⟨pdate, h9, hit⟩ := ebind_eq_ok.mp hit
    obtain ⟨supp, h10, hit⟩ := ebind_eq_ok.mp hit
    obtain ⟨stat, h11, hit⟩ := ebind_eq_ok.mp hit
    obtain ⟨nts, h12, hit⟩ := ebind_eq_ok.mp hit
    obtain ⟨cre, h13, hit⟩ := ebind_eq_ok.mp hit
    obtain ⟨upd, h14, hit⟩ := ebind_eq_ok.mp hit
    injection hit with hit
    subst hit
    constructor
    · intro hb
      simp [optField, hb] at h4
      simp [h4]
    · intro hp
      simp [optField, hp] at h8
      simp [h8]
  · intro tp tv tb avg topb h1 h2 h3 h4 h5
    simp [decodeProductStats, h1, h2, h3, h4, h5, ebind_ok]

/-- Witness for the amended C8 at concrete bodies discharging each kind of
hypothesis: the missing-required-field failure, the absent optional fields,
and the default substitution. -/
theorem contract_decoding_defaults_witness :
    (∀ ps, decodeProductStats (Jval.obj psNoValueFields) ≠ Except.ok ps) ∧
    ((invItemOf 1 "Shoe 1" 1).brand_name = none ∧
      (invItemOf 1 "Shoe 1" 1).purchase_price = none) ∧
    decodeProductStats (Jval.obj psNoAvgFields) =
      Except.ok ⟨3, mkRat 100 1, 2, 0, []⟩ :=
  ⟨(contract_decoding_defaults psNoValueFields).2.1 rfl,
   (fun h => ⟨h.1 rfl, h.2 rfl⟩)
     ((contract_decoding_defaults
        (invFields "00000000-0000-0000-0000-000000000001" "Shoe 1" 1)).2.2.1
       (invItemOf 1 "Shoe 1" 1) rfl),
   (contract_decoding_defaults psNoAvgFields).2.2.2 3 (mkRat 100 1) 2 0 []
     rfl rfl rfl rfl rfl⟩

/-- C9: every successful `get_dashboard_metrics` call returns metrics with
`monthly_sales`, `profit_margin` and `pending_imports` hard-coded to zero,
and `total_inventory_value`, `active_listings` and `recent_transactions`
copied unchanged from the decoded backend response. -/
theorem dashboard_metrics_hardcoded_zeroes :
    (∀ resp dm, Commands.get_dashboard_metrics resp = Except.ok dm →
      dm.monthly_sales = 0 ∧ dm.profit_margin = 0 ∧ dm.pending_imports = 0) ∧
    (∀ body am, decodeApiDashboardMetrics body = Except.ok am →
      Commands.get_dashboard_metrics (Except.ok body) =
        Except.ok ⟨am.inventory.total_inventory_value, 0, 0,
          am.inventory.items_listed, 0, am.sales.recent_activity⟩) := by
  constructor
  · intro resp dm h
    cases resp with
    | error e =>
      simp [Commands.get_dashboard_metrics,
        ApiClient.get_dashboard_metrics] at h
    | ok body =>
      cases hd : decodeApiDashboardMetrics body with
      | error e =>
        simp [Commands.get_dashboard_metrics,
          ApiClient.get_dashboard_metrics, hd] at h
      | ok am =>
        simp [Commands.get_dashboard_metrics,
          ApiClient.get_dashboard_metrics, hd] at h
        subst h
        exact ⟨rfl, rfl, rfl⟩
  · intro body am h
    simp [Commands.get_dashboard_metrics, ApiClient.get_dashboard_metrics, h]

/-- Witness for C9 at a complete concrete backend body. -/
theorem dashboard_metrics_hardcoded_zeroes_witness :
    Commands.get_dashboard_metrics (Except.ok dashBody) =
      Except.ok ⟨mkRat 2500 1, 0, 0, 2, 0, [Jval.str "sale1"]⟩ :=
  dashboard_metrics_hardcoded_zeroes.2 dashBody dashAm rfl

/-- C10: `http_request` forwards any URL starting with "http" unchanged and
prefixes every other URL with the fixed local base address; the method is
accepted case-insensitively exactly as GET, POST, PUT or DELETE, and any
other method returns the fixed error with no request issued. -/
theorem http_request_method_and_url_gate (method url : String)
    (body : Option Jval) (resp : Except String (Except String Jval)) :
    ((toUpperStr method = "GET" ∨ toUpperStr method = "POST" ∨
      toUpperStr method = "PUT" ∨ toUpperStr method = "DELETE") →
      (Commands.http_request resp method url body).2 =
        [(toUpperStr method,
          if startsWithStr url "http" then url
          else "http://localhost:8000" ++ url, body)]) ∧
    (¬(toUpperStr method = "GET" ∨ toUpperStr method = "POST" ∨
      toUpperStr method = "PUT" ∨ toUpperStr method = "DELETE") →
      Commands.http_request resp method url body =
        (Except.error "Unsupported HTTP method", [])) := by
  constructor
  · intro h
    simp only [Commands.http_request]
    rw [if_pos h]
  · intro h
    simp only [Commands.http_request]
    rw [if_neg h]

/-- Witness for C10: a lower-case supported method with a relative URL sends
one prefixed request; an unsupported method returns the fixed error with no
request. -/
theorem http_request_method_and_url_gate_witness :
    (Commands.http_request (Except.ok (Except.ok Jval.null)) "delete"
        "/api/x" none).2 =
      [("DELETE", "http://localhost:8000/api/x", none)] ∧
    Commands.http_request (Except.ok (Except.ok Jval.null)) "PATCH" "/y"
        none =
      (Except.error "Unsupported HTTP method", []) :=
  ⟨(http_request_method_and_url_gate "delete" "/api/x" none
      (Except.ok (Except.ok Jval.null))).1 (by decide),
   (http_request_method_and_url_gate "PATCH" "/y" none
      (Except.ok (Except.ok Jval.null))).2 (by decide)⟩
